import Mathlib

/-!
Shallow embedding of the Rose Glass perception engine
(src/services/rose-glass): the biological optimizer, the extended-dimension
estimators, the coherence calculator, pattern and warning tagging, the
confidence classifier, and the lens registry with its perception
orchestrator.  JavaScript numbers are modelled as rationals; the `Map` of
lens calibrations is modelled as an association list with most-recent-first
lookup (matching `Map.set` overwrite semantics); the single `throw` in
`getLens` is modelled with `Except`.
-/

/-- Raw perception dimensions (types.ts `RawDimensions`). -/
structure RawDimensions where
  psi : ℚ
  rho : ℚ
  q : ℚ
  f : ℚ
deriving DecidableEq, Repr

/-- Extended dimensions (types.ts `ExtendedDimensions`): raw plus derived
tau and lambda. -/
structure ExtendedDimensions where
  psi : ℚ
  rho : ℚ
  q : ℚ
  f : ℚ
  tau : ℚ
  lambda : ℚ
deriving DecidableEq, Repr

/-- Per-dimension weight vector of a calibration (types.ts). -/
structure Weights where
  psi : ℚ
  rho : ℚ
  q : ℚ
  f : ℚ
deriving DecidableEq, Repr

/-- Kinetic constants of a calibration (types.ts `BiologicalParams`). -/
structure BiologicalParams where
  Km : ℚ
  Ki : ℚ
deriving DecidableEq, Repr

/-- A lens calibration record (types.ts `LensCalibration`). -/
structure LensCalibration where
  name : String
  description : String
  weights : Weights
  biologicalParams : BiologicalParams
  expectedPatterns : Option (List String)
deriving DecidableEq, Repr

/-- Confidence category of a perception reading (types.ts). -/
inductive Confidence where
  | low
  | medium
  | high
deriving DecidableEq, Repr

/-- Output of one perception invocation (types.ts `PerceptionReport`). -/
structure PerceptionReport where
  lens : String
  dimensions : ExtendedDimensions
  coherence : ℚ
  qOptimized : ℚ
  confidence : Confidence
  patterns : List String
  warnings : List String
deriving DecidableEq, Repr

/-- Michaelis-Menten activation damping
(biological-optimization.ts `optimizeQ`): return 0 for non-positive
activation, clamp activation to 0.999 at or above 1, then divide by
`Km + q + q²/Ki`.  The source performs no validation of `Km` or `Ki`. -/
def optimizeQ (q Km Ki : ℚ) : ℚ :=
  if q ≤ 0 then 0
  else
    let q := if 1 ≤ q then 0.999 else q
    q / (Km + q + q * q / Ki)

/-- The built-in code-analysis lens (calibrations/code-analysis.ts). -/
def codeAnalysisLens : LensCalibration :=
  ⟨"code-analysis",
   "Perceives code repository coherence patterns",
   ⟨0.3, 0.3, 0.15, 0.25⟩,
   ⟨0.2, 0.8⟩,
   some ["error-handling", "type-safety", "test-coverage", "documentation",
         "consistent-style", "modular-structure", "dependency-hygiene"]⟩

/-- The perception service state (rose-glass.service.ts `RoseGlassService`):
the lens `Map` as an association list (newest registration first) and the
default lens name. -/
structure RoseGlassService where
  lenses : List (String × LensCalibration)
  defaultLens : String
deriving Repr

/-- `registerLens`: stores a calibration under its own name; a newer entry
shadows any older one, matching `Map.set` overwrite semantics. -/
def registerLens (s : RoseGlassService) (calibration : LensCalibration) :
    RoseGlassService :=
  ⟨(calibration.name, calibration) :: s.lenses, s.defaultLens⟩

/-- The service as built by the constructor: default lens name
"code-analysis" and the built-in `codeAnalysisLens` registered. -/
def initialService : RoseGlassService :=
  registerLens ⟨[], "code-analysis"⟩ codeAnalysisLens

/-- `getLens`: resolve an optional lens name to a calibration, falling back
to the default name when absent, and throwing "Unknown lens" when the
resolved name is not registered. -/
def getLens (s : RoseGlassService) (name : Option String) :
    Except String LensCalibration :=
  let lensName := name.getD s.defaultLens
  match s.lenses.lookup lensName with
  | some lens => Except.ok lens
  | none => Except.error ("Unknown lens: " ++ lensName)

/-- `calculateCoherence`: optimize activation, add the tau·lambda coupling,
apply the core formula and clamp to [0,4]; returns
(coherence, qOptimized). -/
def calculateCoherence (dimensions : ExtendedDimensions)
    (lens : LensCalibration) : ℚ × ℚ :=
  let qOptimized :=
    optimizeQ dimensions.q lens.biologicalParams.Km lens.biologicalParams.Ki
  let coupling := dimensions.tau * dimensions.lambda
  let rawCoherence := dimensions.psi + dimensions.rho * dimensions.psi +
    qOptimized + dimensions.f * dimensions.psi + coupling
  (min 4.0 (max 0.0 rawCoherence), qOptimized)

/-- `estimateTemporalDepth`: tau from wisdom and consistency, clamped. -/
def estimateTemporalDepth (d : RawDimensions) : ℚ :=
  let rawTau := d.rho * 0.6 + d.psi * 0.4
  min 1.0 (max 0.0 rawTau)

/-- `estimateLensInterference`: lambda from inconsistency and activation,
clamped. -/
def estimateLensInterference (d : RawDimensions) : ℚ :=
  let inconsistency := 1.0 - d.psi
  let rawLambda := inconsistency * d.q * 0.5
  min 1.0 (max 0.0 rawLambda)

/-- `detectPatterns`: threshold tags in source order; the successive
`detected.push` calls are modelled as list concatenation. -/
def detectPatterns (d : ExtendedDimensions) (lens : LensCalibration) :
    List String :=
  (if 0.7 ≤ d.psi then ["high-consistency"] else []) ++
  (if d.psi ≤ 0.3 then ["low-consistency"] else []) ++
  (if 0.7 ≤ d.rho then ["battle-tested"] else []) ++
  (if d.rho ≤ 0.3 then ["immature"] else []) ++
  (if 0.7 ≤ d.q then ["high-activation"] else []) ++
  (if d.q ≤ 0.2 then ["dormant"] else []) ++
  (if 0.7 ≤ d.f then ["well-integrated"] else []) ++
  (if d.f ≤ 0.3 then ["isolated"] else []) ++
  (if 0.7 ≤ d.tau then ["deep-history"] else []) ++
  (if d.tau ≤ 0.3 then ["ephemeral"] else []) ++
  (if 0.5 ≤ d.lambda then ["observer-interference"] else []) ++
  (if 0.7 ≤ d.psi ∧ 0.7 ≤ d.rho then ["stable-mature"] else []) ++
  (if d.psi ≤ 0.3 ∧ 0.7 ≤ d.q then ["chaotic-active"] else []) ++
  (if 0.7 ≤ d.f ∧ 0.7 ≤ d.rho then ["ecosystem-anchor"] else [])

/-- `generateWarnings`: independent warning conditions in source order. -/
def generateWarnings (d : ExtendedDimensions) (coherence : ℚ) :
    List String :=
  (if coherence < 1.0 then
    ["Low overall coherence - substrate may be unstable"] else []) ++
  (if d.psi ≤ 0.3 ∧ 0.7 ≤ d.q then
    ["High activation with low consistency - potential instability"]
   else []) ++
  (if d.f ≤ 0.3 ∧ 0.5 ≤ d.rho then
    ["Isolated despite maturity - integration issues"] else []) ++
  (if 0.6 ≤ d.lambda then
    ["High observer interference - perception may be distorted"] else []) ++
  (if 0.9 ≤ d.q then
    ["Extreme activation detected - biological optimization applied"]
   else []) ++
  (if d.tau ≤ 0.2 ∧ 0.5 ≤ d.rho then
    ["Shallow temporal depth despite accumulated wisdom - anomaly"]
   else [])

/-- `assessConfidence`: signal strength adjusted by interference, bucketed
at 0.6 and 0.35. -/
def assessConfidence (d : ExtendedDimensions) : Confidence :=
  let signalStrength := (d.psi + d.rho + d.q + d.f) / 4
  let interferenceAdjusted := signalStrength * (1.0 - d.lambda * 0.5)
  if 0.6 ≤ interferenceAdjusted then Confidence.high
  else if 0.35 ≤ interferenceAdjusted then Confidence.medium
  else Confidence.low

/-- `perceive`: resolve the lens, extend the raw dimensions with tau and
lambda, compute coherence, patterns, warnings and confidence, and assemble
the report.  The raw dimensions are spread into the extended record
unmodified. -/
def perceive (s : RoseGlassService) (dimensions : RawDimensions)
    (lensName : Option String) : Except String PerceptionReport :=
  match getLens s lensName with
  | Except.error e => Except.error e
  | Except.ok lens =>
    let extended : ExtendedDimensions :=
      ⟨dimensions.psi, dimensions.rho, dimensions.q, dimensions.f,
       estimateTemporalDepth dimensions, estimateLensInterference dimensions⟩
    let cq := calculateCoherence extended lens
    let patterns := detectPatterns extended lens
    let warnings := generateWarnings extended cq.1
    let confidence := assessConfidence extended
    Except.ok ⟨lens.name, extended, cq.1, cq.2, confidence, patterns,
               warnings⟩

/-- Membership in a conditional singleton prepended to a list. -/
theorem mem_ite_cat (a : String) (c : Prop) [Decidable c] (x : String)
    (l : List String) :
    (a ∈ (if c then [x] else []) ++ l) ↔ (c ∧ a = x) ∨ a ∈ l := by
  split <;> simp_all

/-- C1: the pure-damping claim `optimizeQ a Km Ki < a` for all a in (0,1)
and positive constants is false: at a = 1/10, Km = 1/100, Ki = 100 (all in
range) the optimizer returns 1000/1101 ≈ 0.908, strictly greater than the
input. -/
theorem C1_counterexample :
    (0 < (1/10 : ℚ) ∧ (1/10 : ℚ) < 1 ∧ 0 < (1/100 : ℚ) ∧
      0 < (100 : ℚ)) ∧
    optimizeQ (1/10) (1/100) 100 = 1000/1101 ∧
    ¬ optimizeQ (1/10) (1/100) 100 < 1/10 := by
  refine ⟨by norm_num, ?_, ?_⟩ <;> norm_num [optimizeQ]

/-- C1 (amended): for a in (0,1) and Km, Ki > 0 the optimizer returns
a / (Km + a + a²/Ki), and this is strictly less than a exactly when the
denominator exceeds 1; damping is conditional, not universal. -/
theorem C1_damping_iff (a Km Ki : ℚ) (h1 : 0 < a) (h2 : a < 1)
    (h3 : 0 < Km) (h4 : 0 < Ki) :
    optimizeQ a Km Ki = a / (Km + a + a * a / Ki) ∧
    (optimizeQ a Km Ki < a ↔ 1 < Km + a + a * a / Ki) := by
  have hform : optimizeQ a Km Ki = a / (Km + a + a * a / Ki) := by
    rw [optimizeQ, if_neg (by linarith), if_neg (by linarith)]
  refine ⟨hform, ?_⟩
  have hden : 0 < Km + a + a * a / Ki := by positivity
  rw [hform, div_lt_iff₀ hden]
  constructor <;> intro h <;> nlinarith

/-- C1 witness: at the spec's own example point a = 0.5, Km = 0.2,
Ki = 0.8 the denominator exceeds 1, so damping does hold there. -/
theorem C1_witness : optimizeQ (1/2) (1/5) (4/5) < 1/2 :=
  (C1_damping_iff (1/2) (1/5) (4/5) (by norm_num) (by norm_num)
    (by norm_num) (by norm_num)).2.mpr (by norm_num)

/-- C2: the claim that the optimizer fails with an "invalid kinetic
constants" condition when a constant is ≤ 0 and activation is positive is
false: the source has no such check.  At activation 1/2 > 0 and
Km = -1/10 ≤ 0 the optimizer returns the plain numeric value 40/57 — which
even exceeds the activation. -/
theorem C2_counterexample :
    ((0 : ℚ) < 1/2 ∧ -(1/10 : ℚ) ≤ 0) ∧
    optimizeQ (1/2) (-(1/10)) (4/5) = 40/57 ∧
    (1/2 : ℚ) < 40/57 := by
  refine ⟨by norm_num, ?_, by norm_num⟩
  norm_num [optimizeQ]

/-- C2 (amended): the optimizer performs no validation of the kinetic
constants.  For activation ≤ 0 it returns 0 regardless of the constants
(the short-circuit does take precedence), and for activation in (0,1) it
returns a / (Km + a + a²/Ki) even when Km ≤ 0 or Ki ≤ 0. -/
theorem C2_no_constant_validation (a Km Ki : ℚ) :
    (a ≤ 0 → optimizeQ a Km Ki = 0) ∧
    (0 < a → a < 1 → optimizeQ a Km Ki = a / (Km + a + a * a / Ki)) := by
  constructor
  · intro h
    rw [optimizeQ, if_pos h]
  · intro h1 h2
    rw [optimizeQ, if_neg (by linarith), if_neg (by linarith)]

/-- C2 witness: a negative activation yields 0 under entirely negative
constants, and positive activation under a negative Km yields the raw
formula value. -/
theorem C2_witness :
    optimizeQ (-1) (-5) (-7) = 0 ∧
    optimizeQ (1/2) (-(1/10)) (4/5) =
      (1/2) / (-(1/10) + 1/2 + (1/2) * (1/2) / (4/5)) :=
  ⟨(C2_no_constant_validation (-1) (-5) (-7)).1 (by norm_num),
   (C2_no_constant_validation (1/2) (-(1/10)) (4/5)).2 (by norm_num)
     (by norm_num)⟩

/-- C4: calculateCoherence returns exactly
(clamp (psi + rho·psi + qOpt + f·psi + tau·lambda) 0 4, qOpt) with
qOpt = optimizeQ q Km Ki taken from the lens's kinetic constants:
consistency multiplies wisdom and belonging, while optimized activation
and the tau·lambda coupling are added unconditionally. -/
theorem C4_coherence_formula (dims : ExtendedDimensions)
    (lens : LensCalibration) :
    calculateCoherence dims lens =
      (min 4 (max 0 (dims.psi + dims.rho * dims.psi +
        optimizeQ dims.q lens.biologicalParams.Km lens.biologicalParams.Ki +
        dims.f * dims.psi + dims.tau * dims.lambda)),
       optimizeQ dims.q lens.biologicalParams.Km
         lens.biologicalParams.Ki) := by
  norm_num [calculateCoherence]

/-- C5: two calibrations with equal kinetic constants produce identical
(coherence, qOptimized) on every input, whatever their weight vectors: the
weights never enter the computation. -/
theorem C5_weights_unused (lens1 lens2 : LensCalibration)
    (h : lens1.biologicalParams = lens2.biologicalParams)
    (dims : ExtendedDimensions) :
    calculateCoherence dims lens1 = calculateCoherence dims lens2 := by
  simp [calculateCoherence, h]

/-- A calibration with zero weights, for the C5 witness. -/
def lensZeroWeights : LensCalibration :=
  ⟨"zero-weights", "all weights zero", ⟨0, 0, 0, 0⟩, ⟨1/5, 4/5⟩, none⟩

/-- A calibration with large, uneven weights but the same kinetic
constants as `lensZeroWeights`, for the C5 witness. -/
def lensBigWeights : LensCalibration :=
  ⟨"big-weights", "all weights large", ⟨1, 2, 3, 4⟩, ⟨1/5, 4/5⟩, none⟩

/-- C5 witness: radically different weight vectors, same kinetic
constants, identical result at a concrete input. -/
theorem C5_witness :
    calculateCoherence ⟨1/2, 1/2, 1/2, 1/2, 1/2, 1/2⟩ lensZeroWeights =
    calculateCoherence ⟨1/2, 1/2, 1/2, 1/2, 1/2, 1/2⟩ lensBigWeights :=
  C5_weights_unused lensZeroWeights lensBigWeights rfl
    ⟨1/2, 1/2, 1/2, 1/2, 1/2, 1/2⟩

/-- C8: pattern membership is governed by the fixed thresholds — a high
tag at ≥0.7 and a low tag at ≤0.3 per dimension, except activation's
dormant tag at ≤0.2 and interference's single ≥0.5 tag — plus three
cross-dimensional tags each requiring two simultaneous conditions; and the
high and low tags of the same dimension never co-occur. -/
theorem C8_pattern_thresholds (d : ExtendedDimensions)
    (lens : LensCalibration) :
    (("high-consistency" ∈ detectPatterns d lens ↔ 0.7 ≤ d.psi) ∧
     ("low-consistency" ∈ detectPatterns d lens ↔ d.psi ≤ 0.3) ∧
     ("battle-tested" ∈ detectPatterns d lens ↔ 0.7 ≤ d.rho) ∧
     ("immature" ∈ detectPatterns d lens ↔ d.rho ≤ 0.3) ∧
     ("high-activation" ∈ detectPatterns d lens ↔ 0.7 ≤ d.q) ∧
     ("dormant" ∈ detectPatterns d lens ↔ d.q ≤ 0.2) ∧
     ("well-integrated" ∈ detectPatterns d lens ↔ 0.7 ≤ d.f) ∧
     ("isolated" ∈ detectPatterns d lens ↔ d.f ≤ 0.3) ∧
     ("deep-history" ∈ detectPatterns d lens ↔ 0.7 ≤ d.tau) ∧
     ("ephemeral" ∈ detectPatterns d lens ↔ d.tau ≤ 0.3) ∧
     ("observer-interference" ∈ detectPatterns d lens ↔ 0.5 ≤ d.lambda) ∧
     ("stable-mature" ∈ detectPatterns d lens ↔
        0.7 ≤ d.psi ∧ 0.7 ≤ d.rho) ∧
     ("chaotic-active" ∈ detectPatterns d lens ↔
        d.psi ≤ 0.3 ∧ 0.7 ≤ d.q) ∧
     ("ecosystem-anchor" ∈ detectPatterns d lens ↔
        0.7 ≤ d.f ∧ 0.7 ≤ d.rho)) ∧
    (¬ ("high-consistency" ∈ detectPatterns d lens ∧
        "low-consistency" ∈ detectPatterns d lens) ∧
     ¬ ("battle-tested" ∈ detectPatterns d lens ∧
        "immature" ∈ detectPatterns d lens) ∧
     ¬ ("high-activation" ∈ detectPatterns d lens ∧
        "dormant" ∈ detectPatterns d lens) ∧
     ¬ ("well-integrated" ∈ detectPatterns d lens ∧
        "isolated" ∈ detectPatterns d lens) ∧
     ¬ ("deep-history" ∈ detectPatterns d lens ∧
        "ephemeral" ∈ detectPatterns d lens)) := by
  constructor
  · refine ⟨?_, ?_, ?_, ?_, ?_, ?_, ?_, ?_, ?_, ?_, ?_, ?_, ?_, ?_⟩ <;>
      simp [detectPatterns, mem_ite_cat]
  · refine ⟨?_, ?_, ?_, ?_, ?_⟩ <;>
      · simp only [detectPatterns, mem_ite_cat]
        simp
        intros
        linarith

/-- C9: the derived temporal depth is clamp01(0.6·rho + 0.4·psi) and the
derived interference is clamp01(0.5·(1 − psi)·q), with exactly these
coefficients (wisdom = rho, consistency = psi, activation = q). -/
theorem C9_estimator_coefficients (d : RawDimensions) :
    estimateTemporalDepth d = min 1 (max 0 (0.6 * d.rho + 0.4 * d.psi)) ∧
    estimateLensInterference d =
      min 1 (max 0 (0.5 * (1 - d.psi) * d.q)) := by
  constructor <;>
    · simp only [estimateTemporalDepth, estimateLensInterference]
      ring_nf

/-- Bounds of the clamp used by the two estimators. -/
theorem clamp01_bounds (x : ℚ) :
    0 ≤ min 1.0 (max 0.0 x) ∧ min 1.0 (max 0.0 x) ≤ 1 := by
  constructor
  · exact le_min (by norm_num)
      (le_trans (by norm_num : (0:ℚ) ≤ 0.0) (le_max_left _ _))
  · exact le_trans (min_le_left _ _) (by norm_num)

/-- C10: for every rational-valued input, in range or not, the two derived
dimensions are clamped into [0,1] at their point of computation. -/
theorem C10_estimators_bounded (d : RawDimensions) :
    (0 ≤ estimateTemporalDepth d ∧ estimateTemporalDepth d ≤ 1) ∧
    (0 ≤ estimateLensInterference d ∧
      estimateLensInterference d ≤ 1) := by
  unfold estimateTemporalDepth estimateLensInterference
  exact ⟨clamp01_bounds (d.rho * 0.6 + d.psi * 0.4),
         clamp01_bounds ((1.0 - d.psi) * d.q * 0.5)⟩

/-- Bounds of the clamp used by the coherence calculator. -/
theorem clamp04_bounds (x : ℚ) :
    0 ≤ min 4.0 (max 0.0 x) ∧ min 4.0 (max 0.0 x) ≤ 4 := by
  constructor
  · exact le_min (by norm_num)
      (le_trans (by norm_num : (0:ℚ) ≤ 0.0) (le_max_left _ _))
  · exact le_trans (min_le_left _ _) (by norm_num)

/-- The all-zero raw input, used as a concrete evaluation point. -/
def rawZero : RawDimensions := ⟨0, 0, 0, 0⟩

/-- The report `perceive` produces on `rawZero` under the default lens. -/
def reportZero : PerceptionReport :=
  ⟨"code-analysis", ⟨0, 0, 0, 0, 0, 0⟩, 0, 0, Confidence.low,
   ["low-consistency", "immature", "dormant", "isolated", "ephemeral"],
   ["Low overall coherence - substrate may be unstable"]⟩

/-- Concrete evaluation of the full pipeline on the all-zero input. -/
theorem perceive_rawZero :
    perceive initialService rawZero none = Except.ok reportZero := by
  norm_num [perceive, getLens, initialService, registerLens,
    codeAnalysisLens, calculateCoherence, optimizeQ, estimateTemporalDepth,
    estimateLensInterference, detectPatterns, generateWarnings,
    assessConfidence, rawZero, reportZero, List.lookup]

/-- C3: the claim that each raw dimension is clamped to [0,1] or rejected
before dimension estimation is false: an out-of-range consistency value of
2 flows unmodified through `perceive` into the report's dimensions (no
rejection occurs and the value is not clamped). -/
theorem C3_counterexample :
    (perceive initialService ⟨2, 0, 0, 0⟩ none).map
      (fun r => r.dimensions.psi) = Except.ok 2 ∧ ¬ ((2:ℚ) ≤ 1) := by
  constructor
  · simp [perceive, getLens, initialService, registerLens, codeAnalysisLens,
      List.lookup, Except.map]
  · norm_num

/-- C3 (amended): `perceive` neither clamps nor rejects the raw
dimensions: all four raw values are copied unmodified into the report's
extended dimensions (and hence feed coherence and pattern detection
unvalidated); only the derived tau and lambda are clamped into [0,1]. -/
theorem C3_raw_passthrough (s : RoseGlassService) (d : RawDimensions)
    (name : Option String) (r : PerceptionReport)
    (h : perceive s d name = Except.ok r) :
    r.dimensions.psi = d.psi ∧ r.dimensions.rho = d.rho ∧
    r.dimensions.q = d.q ∧ r.dimensions.f = d.f ∧
    0 ≤ r.dimensions.tau ∧ r.dimensions.tau ≤ 1 ∧
    0 ≤ r.dimensions.lambda ∧ r.dimensions.lambda ≤ 1 := by
  unfold perceive at h
  cases hg : getLens s name with
  | error e => rw [hg] at h; exact Except.noConfusion h
  | ok lens =>
    rw [hg] at h
    cases Except.ok.inj h
    refine ⟨rfl, rfl, rfl, rfl, ?_, ?_, ?_, ?_⟩ <;>
      · show _ ≤ _
        unfold estimateTemporalDepth estimateLensInterference
        first
          | exact (clamp01_bounds _).1
          | exact (clamp01_bounds _).2

/-- C3 witness: the pass-through theorem applied at the all-zero input. -/
theorem C3_witness :
    reportZero.dimensions.psi = rawZero.psi ∧
    reportZero.dimensions.rho = rawZero.rho ∧
    reportZero.dimensions.q = rawZero.q ∧
    reportZero.dimensions.f = rawZero.f ∧
    0 ≤ reportZero.dimensions.tau ∧ reportZero.dimensions.tau ≤ 1 ∧
    0 ≤ reportZero.dimensions.lambda ∧
    reportZero.dimensions.lambda ≤ 1 :=
  C3_raw_passthrough initialService rawZero none reportZero perceive_rawZero

/-- C6: every report `perceive` produces has coherence in [0,4]; and in
the degenerate case where all six extended dimensions equal 1, the
unclamped sum exceeds 4 (it is 4 + optimizeQ 1 Km Ki ≈ 4.408 under the
default lens) and `calculateCoherence` clamps it to exactly 4. -/
theorem C6_coherence_bounded :
    (∀ (s : RoseGlassService) (d : RawDimensions) (name : Option String)
      (r : PerceptionReport), perceive s d name = Except.ok r →
      0 ≤ r.coherence ∧ r.coherence ≤ 4) ∧
    (4 < (1:ℚ) + 1 * 1 +
      optimizeQ 1 codeAnalysisLens.biologicalParams.Km
        codeAnalysisLens.biologicalParams.Ki + 1 * 1 + 1 * 1 ∧
     (calculateCoherence ⟨1, 1, 1, 1, 1, 1⟩ codeAnalysisLens).1 = 4) := by
  constructor
  · intro s d name r h
    unfold perceive at h
    cases hg : getLens s name with
    | error e => rw [hg] at h; exact Except.noConfusion h
    | ok lens =>
      rw [hg] at h
      cases Except.ok.inj h
      show 0 ≤ (calculateCoherence _ _).1 ∧ (calculateCoherence _ _).1 ≤ 4
      unfold calculateCoherence
      exact clamp04_bounds _
  · constructor <;> norm_num [calculateCoherence, optimizeQ, codeAnalysisLens]

/-- C6 witness: the bound instantiated on the concrete all-zero report. -/
theorem C6_witness :
    0 ≤ reportZero.coherence ∧ reportZero.coherence ≤ 4 :=
  C6_coherence_bounded.1 initialService rawZero none reportZero
    perceive_rawZero

/-- C7: with no identifier, `getLens` on the freshly constructed service
returns the built-in code-analysis calibration; after registering any
calibration (over any prior state), looking it up by its name returns it
(newest registration wins); and an identifier missing from the registry
yields the explicit "Unknown lens" error, never the default. -/
theorem C7_lens_resolution :
    (getLens initialService none = Except.ok codeAnalysisLens) ∧
    (∀ (s : RoseGlassService) (cal : LensCalibration),
      getLens (registerLens s cal) (some cal.name) = Except.ok cal) ∧
    (∀ (s : RoseGlassService) (nm : String),
      s.lenses.lookup nm = none →
      getLens s (some nm) = Except.error ("Unknown lens: " ++ nm)) := by
  refine ⟨?_, ?_, ?_⟩
  · simp [getLens, initialService, registerLens, codeAnalysisLens,
      List.lookup]
  · intro s cal
    simp [getLens, registerLens, List.lookup]
  · intro s nm h
    simp [getLens, h]

/-- C7 witness: an identifier that was never registered fails with the
explicit unknown-lens error rather than falling back to the default. -/
theorem C7_witness :
    getLens initialService (some "does-not-exist") =
      Except.error ("Unknown lens: " ++ "does-not-exist") :=
  C7_lens_resolution.2.2 initialService "does-not-exist"
    (by simp [initialService, registerLens, codeAnalysisLens, List.lookup])
